import Mathlib

/-!
Shallow embedding of the SRM Syllabus Finder query-resolution and fallback
core (part_001 `processQuery` and helpers, part_002 study-buddy `callLLM` /
`generateLocalResponse`, `llm.js` `callLLM` / `formatLLMResponse`,
`addToHistory`).  JavaScript strings are embedded as Lean `String`,
regex-based replacements as explicit character-list scans with the same
left-to-right, lazy/greedy semantics at every input used below, and the
conversation-history mutation as explicit state passing.
-/

set_option maxRecDepth 10000

/-! ## String utilities mirroring the JavaScript primitives used by the source -/

/-- Embeds JavaScript `String.prototype.toLowerCase` (the source only ever
lowercases ASCII catalog text and user queries). -/
def lowerStr (s : String) : String := ⟨s.data.map Char.toLower⟩

/-- Contiguous-substring scan over character lists. -/
def subListAt (needle : List Char) : List Char → Bool
  | [] => needle.isEmpty
  | c :: cs => needle.isPrefixOf (c :: cs) || subListAt needle cs

/-- Embeds JavaScript `hay.includes(needle)`: contiguous substring test. -/
def strIncludes (hay needle : String) : Bool := subListAt needle.data hay.data

/-- Embeds JavaScript `Array.prototype.join(sep)` over strings. -/
def joinSep (sep : String) : List String → String
  | [] => ""
  | [x] => x
  | x :: xs => x ++ sep ++ joinSep sep xs

/-- Characters treated as whitespace by the embedded `\s` / `trim`. -/
def isWsChar (c : Char) : Bool := c.isWhitespace

/-- Embeds JavaScript `String.prototype.trim`. -/
def strTrim (s : String) : String :=
  ⟨((s.data.dropWhile isWsChar).reverse.dropWhile isWsChar).reverse⟩

/-! ## Data model (spec section 3; the catalog file itself is not in src) -/

/-- A syllabus unit (source field names `number`, `title`, `topics`); the
source calls this record `Unit`, renamed here because `Unit` is taken by
the Lean core library. -/
structure SylUnit where
  number : Nat
  title : String
  topics : List String
deriving DecidableEq, Repr

/-- A catalog subject as consumed by `processQuery` and the cards. -/
structure Subject where
  code : String
  name : String
  fullName : String
  credits : Nat
  type : String
  units : List SylUnit
deriving DecidableEq, Repr

/-- The in-memory catalog (`syllabusData`) as seen by part_001. -/
structure Catalog where
  subjects : List Subject
deriving DecidableEq, Repr

/-- The `syllabusData` argument of `generateLocalResponse` (part_002), whose
`subjects` field is guarded by `|| []` and may therefore be absent. -/
structure SyllabusData where
  subjects : Option (List Subject)
deriving DecidableEq, Repr

/-- A transient topic-search hit, with the field names used by
`createTopicResults` in part_001. -/
structure TopicMatch where
  subject : String
  subjectCode : String
  unit : Nat
  unitTitle : String
  topic : String
deriving DecidableEq, Repr

/-! ## History Ring (`addToHistory`, identical in llm.js:47-52 and part_002) -/

inductive Role where
  | user
  | assistant
deriving DecidableEq, Repr

structure Turn where
  role : Role
  content : String
deriving DecidableEq, Repr

def MAX_HISTORY : Nat := 10

/-- Embeds `addToHistory(role, content)`: push `{role, content}` to the tail
and `shift()` the head when the length exceeds `MAX_HISTORY`. -/
def addToHistory (history : List Turn) (t : Turn) : List Turn :=
  let h := history ++ [t]
  if MAX_HISTORY < h.length then h.tail else h

/-! ## part_002 study-buddy tier 3: `generateLocalResponse` (lines 278-298) -/

namespace StudyBuddyHF

/-- The syllabus dump built for a matching subject inside
`generateLocalResponse`. -/
def subjectResponse (s : Subject) : String :=
  "**" ++ s.name ++ "** (" ++ s.code ++ ")\n\n" ++
  String.join (s.units.map (fun u =>
    "**Unit " ++ toString u.number ++ ": " ++ u.title ++ "**\n" ++
    joinSep "\n" (u.topics.map (fun t => "• " ++ t)) ++ "\n\n"))

/-- Embeds `generateLocalResponse(query, syllabusData)` (part_002:278-298):
scan the subjects for the first bidirectional name/query containment hit and
return its syllabus dump, otherwise return the static subject listing. -/
def generateLocalResponse (query : String) (syllabusData : SyllabusData) : String :=
  let queryLower := lowerStr query
  match (syllabusData.subjects.getD []).find? (fun s =>
      strIncludes (lowerStr s.name) queryLower || strIncludes queryLower (lowerStr s.name)) with
  | some s => subjectResponse s
  | none =>
    "I couldn't connect to the AI backend. Here are the available subjects: " ++
    joinSep ", " ((syllabusData.subjects.getD []).map (fun s => s.name)) ++
    "\n\nTry asking about a specific subject like \"Machine Learning\" or \"Deep Learning\"."

end StudyBuddyHF

/-! ## part_001: the local intent-resolution engine (`processQuery` and helpers) -/

namespace App

/-- Modelled from the spec: `allSubjects()` of the Catalog Index (section 4.1,
"catalog order"); the catalog-index implementation file is not among the
provided sources, only its callers are. -/
def getAllSubjects (cat : Catalog) : List Subject := cat.subjects

/-- Modelled from the spec: `findByAlias` resolves a canonical subject name
produced by the keyword table to its catalog record (section 4.1); the
lookup function `findSubject` is absent from the provided sources. -/
def findSubject (subjectName : String) (cat : Catalog) : Option Subject :=
  cat.subjects.find? (fun s => s.name == subjectName)

/-- Modelled from the spec: `unit(subjectName, number) -> Unit?` of the
Catalog Index (section 4.1, "returns the unit with matching number or
none"); `findSubjectUnit` is absent from the provided sources.  Its caller
tests `result && result.unit`, so the absent-subject and absent-unit cases
are both embedded as `none`. -/
def findSubjectUnit (subjectName : String) (n : Nat) (cat : Catalog) :
    Option (Subject × SylUnit) :=
  (cat.subjects.find? (fun s => s.name == subjectName)).bind fun s =>
    (s.units.find? (fun u => u.number == n)).map fun u => (s, u)

/-- Modelled from the spec: `searchTopics(fragment)` of the Catalog Index
(section 4.1): "case-insensitive substring match of `fragment` against every
topic string across all subjects/units, in catalog order; empty fragment
yields empty result"; the implementation is absent from the provided
sources. -/
def searchTopics (fragment : String) (cat : Catalog) : List TopicMatch :=
  if fragment = "" then []
  else
    cat.subjects.flatMap fun s =>
      s.units.flatMap fun u =>
        (u.topics.filter (fun t => strIncludes (lowerStr t) (lowerStr fragment))).map
          fun t => ⟨s.name, s.code, u.number, u.title, t⟩

/-- The keyword table of `findSubjectInQuery` (part_001:190-203), in its
declared order. -/
def keywords : List (String × String) :=
  [("agent", "AgentOps"), ("agentops", "AgentOps"),
   ("ml", "Machine Learning"), ("machine", "Machine Learning"),
   ("deep", "Deep Learning"), ("dl", "Deep Learning"),
   ("nlp", "NLP"), ("natural", "NLP"), ("language", "NLP"),
   ("cv", "Computer Vision"), ("vision", "Computer Vision"), ("image", "Computer Vision")]

/-- Embeds `findSubjectInQuery(query)` (part_001:177-212): first subject
whose name, code or fullName occurs in the query, else the first keyword hit
resolved through `findSubject` (returning that lookup's result directly,
even when it is null). -/
def findSubjectInQuery (query : String) (cat : Catalog) : Option Subject :=
  let q := lowerStr query
  match cat.subjects.find? (fun s =>
      strIncludes q (lowerStr s.name) || strIncludes q (lowerStr s.code) ||
      strIncludes q (lowerStr s.fullName)) with
  | some s => some s
  | none =>
    match keywords.find? (fun p => strIncludes q p.1) with
    | some p => findSubject p.2 cat
    | none => none

/-- One step of `/unit\s*(\d+)/i` at a fixed position: literal `unit`,
optional whitespace, then a nonempty digit run. -/
def tryUnitAt (cs : List Char) : Option Nat :=
  if cs.take 4 = ['u', 'n', 'i', 't'] then
    let ds := ((cs.drop 4).dropWhile isWsChar).takeWhile Char.isDigit
    if ds.isEmpty then none
    else some (ds.foldl (fun a c => a * 10 + (c.toNat - 48)) 0)
  else none

/-- Embeds `q.match(/unit\s*(\d+)/i)` + `parseInt` on the lowercased query:
the regex engine tries each position left to right and yields the first
full match. -/
def matchUnitNumAux : List Char → Option Nat
  | [] => none
  | c :: cs =>
    match tryUnitAt (c :: cs) with
    | some n => some n
    | none => matchUnitNumAux cs

def matchUnitNum (q : String) : Option Nat := matchUnitNumAux q.data

/-- The alternatives of `/topic|where|find|is|the|in|which/gi`, in source
order. -/
def kwAlternatives : List (List Char) :=
  ["topic".data, "where".data, "find".data, "is".data, "the".data, "in".data, "which".data]

/-- First alternative matching (case-insensitively) at the current position,
as the regex alternation tries them left to right. -/
def firstKwMatch (cs : List Char) : Option (List Char) :=
  kwAlternatives.find? (fun kw => (cs.take kw.length).map Char.toLower == kw)

/-- Embeds `q.replace(/topic|where|find|is|the|in|which/gi, '')`: scan left
to right, removing every occurrence of an alternative (also inside longer
words — the pattern has no word boundaries) and advancing one character
when none matches.  Fuel is the input length; every step consumes at least
one character, so it never runs out. -/
def stripKeywordsAux : Nat → List Char → List Char
  | 0, cs => cs
  | _ + 1, [] => []
  | fuel + 1, c :: cs =>
    match firstKwMatch (c :: cs) with
    | some kw => stripKeywordsAux fuel ((c :: cs).drop kw.length)
    | none => c :: stripKeywordsAux fuel cs

def stripKeywords (s : String) : String := ⟨stripKeywordsAux s.data.length s.data⟩

/-- The fragment handed to `searchTopics` in the topic branch
(part_001:143): `q.replace(/topic|where|find|is|the|in|which/gi, '').trim()`. -/
def topicFragment (q : String) : String := strTrim (stripKeywords q)

/-- The per-subject item of `createSubjectsList` (part_001:277-285). -/
def subjectItemHtml (s : Subject) : String :=
  "\n                <div class=\"subject-item\" onclick=\"askQuestion('What is the syllabus for " ++
  s.name ++ "?')\">\n                    <div>\n                        <div class=\"name\">" ++
  s.fullName ++ "</div>\n                        <div class=\"code\">" ++ s.code ++ " • " ++
  toString s.credits ++ " Credits • " ++ s.type ++
  "</div>\n                    </div>\n                    <span>→</span>\n                </div>\n            "

/-- Embeds `createSubjectsList()` (part_001:272-288). -/
def createSubjectsList (cat : Catalog) : String :=
  "\n        <p>Here are all available <strong>CINTEL</strong> subjects:</p>\n        <div class=\"subjects-list\">\n            " ++
  String.join ((getAllSubjects cat).map subjectItemHtml) ++
  "\n        </div>\n    "

/-- The inner markup of one unit inside `createSyllabusCard`. -/
def unitBlockHtml (u : SylUnit) : String :=
  "\n                    <div class=\"unit\">\n                        <div class=\"unit-title\">Unit " ++
  toString u.number ++ ": " ++ u.title ++
  "</div>\n                        <ul class=\"unit-topics\">\n                            " ++
  String.join (u.topics.map (fun t => "<li>" ++ t ++ "</li>")) ++
  "\n                        </ul>\n                    </div>\n                "

/-- Embeds the markup built by `createSyllabusCard(subject)`
(part_001:215-242). -/
def createSyllabusCard (s : Subject) : String :=
  "\n        <p>Here's the complete syllabus for <strong>" ++ s.name ++
  "</strong>:</p>\n        <div class=\"syllabus-card\">\n            <div class=\"syllabus-header\">\n                <h3>" ++
  s.fullName ++ "</h3>\n                <span class=\"code\">" ++ s.code ++
  "</span>\n            </div>\n            <div class=\"syllabus-meta\">\n                <span>📚 " ++
  toString s.credits ++ " Credits</span>\n                <span>📋 " ++ s.type ++
  "</span>\n                <span>📖 " ++ toString s.units.length ++
  " Units</span>\n            </div>\n            <div class=\"syllabus-units\">\n                " ++
  String.join (s.units.map unitBlockHtml) ++
  "\n            </div>\n        </div>\n    "

/-- Embeds the markup built by `createUnitCard(subject, unit)`
(part_001:245-269), including its conditional previous/next buttons. -/
def createUnitCard (s : Subject) (u : SylUnit) : String :=
  "\n        <p>Here's <strong>Unit " ++ toString u.number ++ "</strong> of <strong>" ++
  s.name ++ "</strong>:</p>\n        <div class=\"syllabus-card\">\n            <div class=\"syllabus-header\">\n                <h3>" ++
  u.title ++ "</h3>\n                <span class=\"code\">" ++ s.code ++ " - Unit " ++
  toString u.number ++
  "</span>\n            </div>\n            <div class=\"syllabus-units\">\n                <div class=\"unit\">\n                    <ul class=\"unit-topics\">\n                        " ++
  String.join (u.topics.map (fun t => "<li>" ++ t ++ "</li>")) ++
  "\n                    </ul>\n                </div>\n            </div>\n        </div>\n        <div class=\"suggestions\" style=\"margin-top: 12px;\">\n            " ++
  (if 1 < u.number then
    "<button class=\"suggestion-btn\" onclick=\"askQuestion('Show me " ++ s.name ++ " Unit " ++
    toString (u.number - 1) ++ "')\">← Unit " ++ toString (u.number - 1) ++ "</button>"
   else "") ++
  "\n            " ++
  (if u.number < s.units.length then
    "<button class=\"suggestion-btn\" onclick=\"askQuestion('Show me " ++ s.name ++ " Unit " ++
    toString (u.number + 1) ++ "')\">Unit " ++ toString (u.number + 1) ++ " →</button>"
   else "") ++
  "\n            <button class=\"suggestion-btn\" onclick=\"askQuestion('What is the complete syllabus for " ++
  s.name ++ "?')\">Full Syllabus</button>\n        </div>\n    "

/-- A group of topic hits sharing a `subjectCode-unit` key, as produced by
the `reduce` in `createTopicResults` (part_001:292-305). -/
structure TopicGroup where
  subject : String
  subjectCode : String
  unit : Nat
  unitTitle : String
  topics : List String
deriving DecidableEq, Repr

/-- The grouping `reduce`: object keys are `subjectCode-unit` strings, so
groups appear in first-occurrence order and collect their topics in match
order. -/
def groupTopics (ms : List TopicMatch) : List TopicGroup :=
  ms.foldl (fun acc t =>
    let key := t.subjectCode ++ "-" ++ toString t.unit
    if acc.any (fun g => g.subjectCode ++ "-" ++ toString g.unit == key) then
      acc.map (fun g =>
        if g.subjectCode ++ "-" ++ toString g.unit == key then
          { g with topics := g.topics ++ [t.topic] }
        else g)
    else acc ++ [⟨t.subject, t.subjectCode, t.unit, t.unitTitle, [t.topic]⟩]) []

/-- Embeds `createTopicResults(topics)` (part_001:291-323). -/
def createTopicResults (topics : List TopicMatch) : String :=
  let results := groupTopics topics
  "\n        <p>Found <strong>" ++ toString topics.length ++
  "</strong> matching topic(s):</p>\n        <div class=\"subjects-list\">\n            " ++
  String.join (results.map (fun r =>
    "\n                <div class=\"subject-item\" onclick=\"askQuestion('Show me " ++
    r.subject ++ " Unit " ++ toString r.unit ++
    "')\">\n                    <div>\n                        <div class=\"name\">" ++
    r.topics.headD "" ++ "</div>\n                        <div class=\"code\">" ++ r.subject ++
    " - Unit " ++ toString r.unit ++ ": " ++ r.unitTitle ++
    "</div>\n                    </div>\n                    <span>→</span>\n                </div>\n            ")) ++
  "\n        </div>\n    "

/-- The suggestion markup of the unit branch when no subject is identified
(part_001:125-129). -/
def unitSuggestionsMsg : String :=
  "<p>I couldn't identify the subject. Try asking about a specific subject like:</p>\n                <div class=\"suggestions\">\n                    <button class=\"suggestion-btn\" onclick=\"askQuestion('What is Unit 1 of AgentOps?')\">Unit 1 of AgentOps</button>\n                    <button class=\"suggestion-btn\" onclick=\"askQuestion('Show me Deep Learning Unit 2')\">Deep Learning Unit 2</button>\n                </div>"

/-- The default suggestion markup (part_001:156-161). -/
def defaultSuggestionsMsg : String :=
  "<p>I'm not sure what you're looking for. Here's what I can help you with:</p>\n                <div class=\"suggestions\">\n                    <button class=\"suggestion-btn\" onclick=\"askQuestion('List all subjects')\">📋 All Subjects</button>\n                    <button class=\"suggestion-btn\" onclick=\"askQuestion('What is the syllabus for Machine Learning?')\">🤖 ML Syllabus</button>\n                    <button class=\"suggestion-btn\" onclick=\"askQuestion('Show me Deep Learning Unit 4')\">🧠 DL Unit 4</button>\n                </div>"

/-- The not-found message of the topic branch (part_001:147). -/
def topicNotFoundMsg : String :=
  "<p>I couldn't find that topic. Try searching for something else or view a subject's syllabus.</p>"

/-- Embeds `processQuery(query)` (part_001:99-163), with the catalog passed
explicitly and DOM-building branches embedded as the markup they build.
Branch order, conditions and the truthiness tests (`unitNum` is falsy both
when the regex fails and when it yields 0) follow the source. -/
def processQuery (query : String) (cat : Catalog) : String :=
  let q := lowerStr query
  if strIncludes q "list" && (strIncludes q "subject" || strIncludes q "all") then
    createSubjectsList cat
  else if strIncludes q "unit" then
    match findSubjectInQuery q cat, matchUnitNum q with
    | some s, some n =>
      if n = 0 then createSyllabusCard s
      else
        match findSubjectUnit s.name n cat with
        | some (s', u) => createUnitCard s' u
        | none =>
          "<p>I couldn't find Unit " ++ toString n ++ " for <strong>" ++ s.name ++
          "</strong>. This subject has " ++ toString s.units.length ++ " units.</p>"
    | some s, none => createSyllabusCard s
    | none, _ => unitSuggestionsMsg
  else if strIncludes q "syllabus" || strIncludes q "what is" ||
      strIncludes q "show me" || strIncludes q "tell me about" then
    match findSubjectInQuery q cat with
    | some s => createSyllabusCard s
    | none =>
      "<p>I couldn't find that subject. Here are the available subjects:</p>" ++
      createSubjectsList cat
  else if strIncludes q "topic" || strIncludes q "where" || strIncludes q "find" then
    let topics := searchTopics (topicFragment q) cat
    if 0 < topics.length then createTopicResults topics
    else topicNotFoundMsg
  else
    match findSubjectInQuery q cat with
    | some s => createSyllabusCard s
    | none => defaultSuggestionsMsg

end App

/-! ## Renderer: `formatLLMResponse` (llm.js:140-167)

The markdown-to-markup conversion is a fixed pipeline of JavaScript
`String.replace` calls.  Each regex is embedded as a character scan with the
engine's left-to-right, lazy (`+?`) or literal semantics; `.` never crosses a
line terminator.  The scans that can jump forward carry the input length as
fuel, which suffices because every step consumes at least one character. -/

/-- Split at `'\n'`, as the `m` flag anchors `^`/`$` per line. -/
def splitLines : List Char → List (List Char)
  | [] => [[]]
  | c :: cs =>
    let r := splitLines cs
    if c = '\n' then [] :: r
    else
      match r with
      | l :: ls => (c :: l) :: ls
      | [] => [[c]]

def joinLines : List (List Char) → List Char
  | [] => []
  | [l] => l
  | l :: ls => l ++ '\n' :: joinLines ls

/-- The three heading substitutions `^### (.+)$`, `^## (.+)$`, `^# (.+)$`
(applied in that order; a line rewritten by an earlier one no longer starts
with `#`, so one conditional per line is equivalent). -/
def lineHeader (l : List Char) : List Char :=
  match l with
  | '#' :: '#' :: '#' :: ' ' :: rest =>
    if rest.isEmpty then l else "<h4>".data ++ rest ++ "</h4>".data
  | '#' :: '#' :: ' ' :: rest =>
    if rest.isEmpty then l else "<h3>".data ++ rest ++ "</h3>".data
  | '#' :: ' ' :: rest =>
    if rest.isEmpty then l else "<h2>".data ++ rest ++ "</h2>".data
  | _ => l

/-- Lazy search for the closing delimiter: consume non-newline characters
one at a time, testing the delimiter first at every position after at least
one inner character (`(.+?)`). -/
def goClose (dClose : List Char) : List Char → List Char → Option (List Char × List Char)
  | _, [] => none
  | inner, c :: rest =>
    if dClose.isPrefixOf (c :: rest) && !inner.isEmpty then
      some (inner, (c :: rest).drop dClose.length)
    else if c = '\n' then none
    else goClose dClose (inner ++ [c]) rest

/-- Global replace of `open(.+?)close` by `tagO$1tagC`, scanning left to
right and resuming after each full match. -/
def lazyReplaceAux (dO dC tagO tagC : List Char) : Nat → List Char → List Char
  | 0, cs => cs
  | _ + 1, [] => []
  | fuel + 1, c :: cs =>
    if dO.isPrefixOf (c :: cs) then
      match goClose dC [] ((c :: cs).drop dO.length) with
      | some (inner, rest) => tagO ++ inner ++ tagC ++ lazyReplaceAux dO dC tagO tagC fuel rest
      | none => c :: lazyReplaceAux dO dC tagO tagC fuel cs
    else c :: lazyReplaceAux dO dC tagO tagC fuel cs

def lazyReplace (dO dC tagO tagC : String) (cs : List Char) : List Char :=
  lazyReplaceAux dO.data dC.data tagO.data tagC.data cs.length cs

/-- Global replace of a literal pattern (for `\n\n` and `\n`). -/
def replaceSubAux (pat rep : List Char) : Nat → List Char → List Char
  | 0, cs => cs
  | _ + 1, [] => []
  | fuel + 1, c :: cs =>
    if pat.isPrefixOf (c :: cs) && !pat.isEmpty then
      rep ++ replaceSubAux pat rep fuel ((c :: cs).drop pat.length)
    else c :: replaceSubAux pat rep fuel cs

def replaceSub (pat rep : String) (cs : List Char) : List Char :=
  replaceSubAux pat.data rep.data cs.length cs

/-- Lazy close with the two-way alternation `(<br>|<\/p>)`, tried in source
order and re-emitted by `$2`. -/
def goClose2 (c1 c2 : List Char) : List Char → List Char →
    Option (List Char × List Char × List Char)
  | _, [] => none
  | inner, c :: rest =>
    if c1.isPrefixOf (c :: rest) && !inner.isEmpty then
      some (inner, c1, (c :: rest).drop c1.length)
    else if c2.isPrefixOf (c :: rest) && !inner.isEmpty then
      some (inner, c2, (c :: rest).drop c2.length)
    else if c = '\n' then none
    else goClose2 c1 c2 (inner ++ [c]) rest

/-- Global replace of `<p>- (.+?)(<br>|<\/p>)` by `<li>$1</li>$2`: only a
dash line sitting directly after a paragraph open is rewritten. -/
def liReplaceAux : Nat → List Char → List Char
  | 0, cs => cs
  | _ + 1, [] => []
  | fuel + 1, c :: cs =>
    if "<p>- ".data.isPrefixOf (c :: cs) then
      match goClose2 "<br>".data "</p>".data [] ((c :: cs).drop 5) with
      | some (inner, clos, rest) =>
        "<li>".data ++ inner ++ "</li>".data ++ clos ++ liReplaceAux fuel rest
      | none => c :: liReplaceAux fuel cs
    else c :: liReplaceAux fuel cs

def liReplace (cs : List Char) : List Char := liReplaceAux cs.length cs

/-- The positions where `pat` occurs in `cs`. -/
def idxMatches (pat cs : List Char) : List Nat :=
  (List.range cs.length).filter (fun i => pat.isPrefixOf (cs.drop i))

/-- Embeds `/(<li>.+<\/li>)+/g` with its greedy `.+`: at this point every
newline has already been replaced by `<br>`, so on a line-terminator-free
string the leftmost-greedy match runs from the first `<li>` to the last
`</li>` (one repetition of the group whose `.+` swallows everything in
between), provided at least one character separates them. -/
def wrapUl (cs : List Char) : List Char :=
  match (idxMatches "<li>".data cs).head?, (idxMatches "</li>".data cs).getLast? with
  | some i, some j =>
    if i + 4 < j then
      cs.take i ++ "<ul>".data ++ ((cs.drop i).take (j + 5 - i)) ++ "</ul>".data ++ cs.drop (j + 5)
    else cs
  | _, _ => cs

namespace LlmJs

/-- The substitution pipeline of `formatLLMResponse` on a non-falsy input
(llm.js:144-166): headings, bold, italic, code, paragraph/line breaks,
paragraph wrap, dash list items, list wrap. -/
def formatLLMResponseBody (text : String) : String :=
  let cs := joinLines ((splitLines text.data).map lineHeader)
  let cs := lazyReplace "**" "**" "<strong>" "</strong>" cs
  let cs := lazyReplace "*" "*" "<em>" "</em>" cs
  let cs := lazyReplace "`" "`" "<code>" "</code>" cs
  let cs := replaceSub "\n\n" "</p><p>" cs
  let cs := replaceSub "\n" "<br>" cs
  let cs := "<p>".data ++ cs ++ "</p>".data
  let cs := liReplace cs
  String.mk (wrapUl cs)

/-- Embeds `formatLLMResponse(text)` (llm.js:140-167); the falsy inputs
`null`/`undefined` are `none` and the empty string is also falsy. -/
def formatLLMResponse (text : Option String) : Option String :=
  match text with
  | none => none
  | some t => if t = "" then none else some (formatLLMResponseBody t)

end LlmJs

/-! ## Orchestrator tiers: the HTTP world is passed in as an explicit outcome -/

/-- A source citation as returned by the primary backend
(`data.sources`). -/
structure SourceRef where
  subject : String
  unit : String
deriving DecidableEq, Repr

/-- Outcome of one `fetch` round trip against the primary backend: a 2xx
response with its parsed `response` body and `sources`, a non-2xx status, or
a thrown network/parse error. -/
inductive ApiOutcome where
  | ok (response : Option String) (sources : List SourceRef)
  | httpErr (status : Nat)
  | netErr
deriving DecidableEq, Repr

namespace StudyBuddy

/-- The History Ring effect of `callLLM` (part_002:44-94): the user turn is
appended before the fetch; the assistant turn is appended only inside the
`response.ok` branch when `data.response` is truthy.  The failure paths fall
to `fallbackLLMCall`, which never touches the history. -/
def callLLMHistory (userMessage : String) (r : ApiOutcome) (history : List Turn) : List Turn :=
  let h := addToHistory history ⟨.user, userMessage⟩
  match r with
  | .ok (some m) _ => if m = "" then h else addToHistory h ⟨.assistant, m⟩
  | .ok none _ => h
  | .httpErr _ => h
  | .netErr => h

/-- The spec-shaped view of tier 1: the assistant message it commits to the
ring, when there is one. -/
def tier1Assistant : ApiOutcome → Option String
  | .ok (some m) _ => if m = "" then none else some m
  | _ => none

end StudyBuddy

namespace StudyBuddyHF

/-- Embeds `callLLM` of the hf.space study-buddy variant (part_002:227-275):
any `!response.ok` status — including 429 — throws, and the catch block
answers with `generateLocalResponse`; a 2xx response is returned, decorated
with its sources when present (`undefined` is `none`). -/
def callLLM (userMessage : String) (r : ApiOutcome) (syllabusContext : SyllabusData) :
    Option String :=
  match r with
  | .ok resp srcs =>
    let sourceInfo := joinSep ", " (srcs.map (fun s => "📚 " ++ s.subject))
    match resp with
    | some m =>
      some (if 0 < srcs.length then m ++ "\n\n---\n*Source: " ++ sourceInfo ++ "*" else m)
    | none =>
      if 0 < srcs.length then some ("undefined" ++ "\n\n---\n*Source: " ++ sourceInfo ++ "*")
      else none
  | .httpErr _ => some (generateLocalResponse userMessage syllabusContext)
  | .netErr => some (generateLocalResponse userMessage syllabusContext)

end StudyBuddyHF

namespace LlmJs

/-- Outcome of the llm.js `fetch`: a 2xx JSON body (with its `error` flag and
the extracted `choices[0].message.content`), a non-2xx status, or a thrown
error. -/
inductive LlmOutcome where
  | ok (error : Bool) (content : Option String)
  | httpErr (status : Nat)
  | netErr
deriving DecidableEq, Repr

def rateLimitNotice : String := "⚠️ Rate limit reached. Please wait a moment and try again."

/-- The value returned by `callLLM` (llm.js:55-129) given the fetch outcome:
a 429 status is answered with the rate-limit notice, any other failure with
`null` (so the caller falls back), and a 2xx body yields its content unless
the body carries an `error` or the content is falsy. -/
def callLLMResult : LlmOutcome → Option String
  | .httpErr status => if status = 429 then some rateLimitNotice else none
  | .netErr => none
  | .ok true _ => none
  | .ok false content =>
    match content with
    | some m => if m = "" then none else some m
    | none => none

end LlmJs

/-! ## The spec's own formulations used for comparison -/

/-- Stated from the spec for comparison (section 4.2 TopicSearch): "fragment
= query with the words {topic, where, find, is, the, in, which} stripped
(case-insensitive) and trimmed" — read as removing whole words. -/
def specTopicFragment (query : String) : String :=
  let stop : List String := ["topic", "where", "find", "is", "the", "in", "which"]
  joinSep " " (((query.data.foldr (fun c acc =>
      if isWsChar c then [] :: acc
      else match acc with
        | w :: ws => (c :: w) :: ws
        | [] => [[c]]) [[]]).filter (fun w => !w.isEmpty)).map String.mk
    |>.filter (fun w => !stop.contains (lowerStr w)))

/-! ## Concrete catalogs used as test vectors -/

def dlUnits : List SylUnit :=
  [⟨1, "Intro", ["Neurons"]⟩, ⟨2, "CNN", ["Convolution"]⟩,
   ⟨3, "Training", ["Backpropagation", "Gradient Descent"]⟩,
   ⟨4, "RNN", ["LSTM"]⟩, ⟨5, "GAN", ["Generators"]⟩]

def dlSubject : Subject := ⟨"21CSE558T", "Deep Learning", "Deep Learning", 4, "theory", dlUnits⟩

def catDL : Catalog := ⟨[dlSubject]⟩

def sciSubject : Subject :=
  ⟨"21CHE101T", "General Science", "General Science Basics", 3, "theory",
   [⟨1, "Matter", ["Chemistry", "Physics"]⟩]⟩

def catSci : Catalog := ⟨[sciSubject]⟩

/-! ## Generic helper lemmas -/

/-- A nonempty left part keeps a concatenation nonempty. -/
theorem append_ne_empty (s t : String) (h : s ≠ "") : s ++ t ≠ "" := by
  intro he
  apply h
  have hd := congrArg String.data he
  rw [String.data_append] at hd
  have hnil : s.data = [] := (List.append_eq_nil.mp hd).1
  cases s
  simp_all

/-- The FIFO characterisation of repeated `addToHistory` from any start state
within capacity. -/
theorem foldl_addToHistory (ts : List Turn) : ∀ acc : List Turn, acc.length ≤ 10 →
    ts.foldl addToHistory acc = (acc ++ ts).drop ((acc ++ ts).length - 10) := by
  induction ts with
  | nil =>
    intro acc h
    simp [Nat.sub_eq_zero_of_le h]
  | cons t ts ih =>
    intro acc h
    rw [List.foldl_cons]
    rcases Nat.lt_or_ge acc.length 10 with hlt | hge
    · have hstep : addToHistory acc t = acc ++ [t] := by
        unfold addToHistory MAX_HISTORY
        rw [if_neg]
        simp
        omega
      rw [hstep, ih (acc ++ [t]) (by simp; omega)]
      simp [List.append_assoc]
    · have h10 : acc.length = 10 := Nat.le_antisymm h hge
      obtain ⟨a, as, rfl⟩ : ∃ a as, acc = a :: as := by
        cases acc with
        | nil => simp at h10
        | cons a as => exact ⟨a, as, rfl⟩
      have hlen : as.length = 9 := by simp at h10; omega
      have hstep : addToHistory (a :: as) t = as ++ [t] := by
        unfold addToHistory MAX_HISTORY
        rw [if_pos]
        · simp
        · simp
          omega
      rw [hstep, ih (as ++ [t]) (by simp [hlen])]
      have e1 : ((as ++ [t]) ++ ts).length - 10 = ts.length := by
        simp [hlen]
        omega
      have e2 : ((a :: as) ++ t :: ts).length - 10 = ts.length + 1 := by
        simp [hlen]
      rw [e1, e2, List.append_assoc, List.singleton_append, List.cons_append,
        List.drop_succ_cons]

/-! ## Claims -/

/-- Claim C1: for every input query string (including the empty string) and
every catalog state (including an empty or missing subject list), the
tertiary deterministic local responder (`generateLocalResponse`, and the
part_001 local engine `processQuery`) returns a non-empty answer string; as
a total Lean function it throws nothing. -/
theorem claim1_local_responder_total_nonempty (q : String) (sd : SyllabusData) (cat : Catalog) :
    StudyBuddyHF.generateLocalResponse q sd ≠ "" ∧ App.processQuery q cat ≠ "" := by
  constructor
  · simp only [StudyBuddyHF.generateLocalResponse]
    split
    all_goals repeat' apply append_ne_empty
    all_goals decide
  · simp only [App.processQuery]
    repeat' split
    all_goals repeat' apply append_ne_empty
    all_goals decide

/-- Claim C2: starting from an empty ring, any sequence of `addToHistory`
appends keeps the length at most 10, and the ring holds exactly the last 10
appended turns in their original relative order. -/
theorem claim2_history_ring_bounded_fifo (ts : List Turn) :
    (ts.foldl addToHistory []).length ≤ 10 ∧
    ts.foldl addToHistory [] = ts.drop (ts.length - 10) := by
  have h := foldl_addToHistory ts [] (by simp)
  simp only [List.nil_append] at h
  refine ⟨?_, h⟩
  rw [h, List.length_drop]
  omega

/-- Claim C3 counterexample: on the catalog whose Deep Learning Unit 3
contains the topic "Backpropagation", the query "what is backpropagation"
makes the tertiary responder return the static subject listing — an answer
different from the part_001 resolution path's answer and mentioning neither
the topic nor Unit 3, so the tertiary tier neither runs the section 4.2/4.1
resolution nor performs a topic search. -/
theorem claim3_counterexample :
    App.processQuery "what is backpropagation" catDL ≠
      StudyBuddyHF.generateLocalResponse "what is backpropagation" ⟨some catDL.subjects⟩ ∧
    StudyBuddyHF.generateLocalResponse "what is backpropagation" ⟨some catDL.subjects⟩ =
      "I couldn't connect to the AI backend. Here are the available subjects: Deep Learning\n\nTry asking about a specific subject like \"Machine Learning\" or \"Deep Learning\"." ∧
    strIncludes (StudyBuddyHF.generateLocalResponse "what is backpropagation" ⟨some catDL.subjects⟩)
      "ackpropagation" = false ∧
    strIncludes (StudyBuddyHF.generateLocalResponse "what is backpropagation" ⟨some catDL.subjects⟩)
      "Unit 3" = false := by
  decide

/-- Claim C3 (amended): the tertiary responder performs only bidirectional
whole-query/subject-name containment matching — whenever no subject name
matches, it returns the static subject listing, never a topic-search
answer. -/
theorem claim3_amended_subject_match_only (query : String) (sd : SyllabusData)
    (h : (sd.subjects.getD []).find? (fun s =>
        strIncludes (lowerStr s.name) (lowerStr query) ||
        strIncludes (lowerStr query) (lowerStr s.name)) = none) :
    StudyBuddyHF.generateLocalResponse query sd =
      "I couldn't connect to the AI backend. Here are the available subjects: " ++
      joinSep ", " ((sd.subjects.getD []).map (fun s => s.name)) ++
      "\n\nTry asking about a specific subject like \"Machine Learning\" or \"Deep Learning\"." := by
  simp only [StudyBuddyHF.generateLocalResponse, h]

/-- Witness for the amended claim C3 at the "what is backpropagation"
scenario. -/
theorem claim3_amended_witness :
    StudyBuddyHF.generateLocalResponse "what is backpropagation" ⟨some catDL.subjects⟩ =
      "I couldn't connect to the AI backend. Here are the available subjects: " ++
      joinSep ", " (((⟨some catDL.subjects⟩ : SyllabusData).subjects.getD []).map (fun s => s.name)) ++
      "\n\nTry asking about a specific subject like \"Machine Learning\" or \"Deep Learning\"." :=
  claim3_amended_subject_match_only "what is backpropagation" ⟨some catDL.subjects⟩ (by decide)

/-- Claim C4 (code bug): the renderer interpolates raw text into the markup
without escaping — a script element in the input survives verbatim in the
output, so the output is not safe to insert into a presentation surface. -/
theorem claim4_script_passthrough :
    LlmJs.formatLLMResponse (some "<script>alert(1)</script>") =
      some "<p><script>alert(1)</script></p>" ∧
    strIncludes "<p><script>alert(1)</script></p>" "<script>" = true := by
  decide

/-- Claim C5 counterexample: rendering "- a\n- b" does not yield one list
with the two items "a","b": only the first dash line is converted, the
output contains no list item for "b". -/
theorem claim5_counterexample :
    LlmJs.formatLLMResponse (some "- a\n- b") = some "<ul><li>a</li></ul><br>- b</p>" ∧
    strIncludes "<ul><li>a</li></ul><br>- b</p>" "<li>b" = false := by
  decide

/-- Claim C5 (amended): rendering "- a\n- b" produces one unordered list
containing the single item "a"; the second dash line survives as the literal
text "- b" after a line break, because only a dash line directly following
the paragraph open matches `<p>- (.+?)(<br>|<\/p>)`. -/
theorem claim5_amended_first_item_only :
    LlmJs.formatLLMResponse (some "- a\n- b") = some "<ul><li>a</li></ul><br>- b</p>" ∧
    strIncludes "<ul><li>a</li></ul><br>- b</p>" "<ul><li>a</li></ul>" = true ∧
    strIncludes "<ul><li>a</li></ul><br>- b</p>" "<br>- b" = true := by
  decide

/-- Claim C6 counterexample: the replace has no word boundaries, so for the
topic query "find chemistry" the fragment actually passed to the topic
search is "chemtry" (the "is" inside "chemistry" is deleted), not the
whole-word-stripped "chemistry"; consequently the topic "Chemistry" is
missed although the spec's fragment would find it. -/
theorem claim6_counterexample :
    App.topicFragment (lowerStr "find chemistry") = "chemtry" ∧
    specTopicFragment "find chemistry" = "chemistry" ∧
    App.topicFragment (lowerStr "find chemistry") ≠ specTopicFragment "find chemistry" ∧
    App.processQuery "find chemistry" catSci = App.topicNotFoundMsg ∧
    App.searchTopics (specTopicFragment "find chemistry") catSci ≠ [] := by
  decide

/-- Claim C6 (amended): for every query taking the topic branch, the
fragment passed to the topic search is the query with every occurrence of
the substrings topic, where, find, is, the, in, which removed — also inside
other words — and trimmed. -/
theorem claim6_amended_fragment (query : String) (cat : Catalog)
    (h1 : (strIncludes (lowerStr query) "list" &&
      (strIncludes (lowerStr query) "subject" || strIncludes (lowerStr query) "all")) = false)
    (h2 : strIncludes (lowerStr query) "unit" = false)
    (h3 : (strIncludes (lowerStr query) "syllabus" || strIncludes (lowerStr query) "what is" ||
      strIncludes (lowerStr query) "show me" ||
      strIncludes (lowerStr query) "tell me about") = false)
    (h4 : (strIncludes (lowerStr query) "topic" || strIncludes (lowerStr query) "where" ||
      strIncludes (lowerStr query) "find") = true) :
    App.processQuery query cat =
      (if 0 < (App.searchTopics (App.topicFragment (lowerStr query)) cat).length then
        App.createTopicResults (App.searchTopics (App.topicFragment (lowerStr query)) cat)
      else App.topicNotFoundMsg) := by
  simp only [App.processQuery, h1, h2, h3, h4]
  simp

/-- Witness for the amended claim C6 at "find chemistry". -/
theorem claim6_amended_witness :
    App.processQuery "find chemistry" catSci =
      (if 0 < (App.searchTopics (App.topicFragment (lowerStr "find chemistry")) catSci).length then
        App.createTopicResults (App.searchTopics (App.topicFragment (lowerStr "find chemistry")) catSci)
      else App.topicNotFoundMsg) :=
  claim6_amended_fragment "find chemistry" catSci (by decide) (by decide) (by decide) (by decide)

/-- Claim C7 counterexample: when tier 1 fails (here: HTTP 500), the History
Ring is not left unchanged — the user turn was already appended before the
call. -/
theorem claim7_counterexample :
    StudyBuddy.callLLMHistory "hi" (.httpErr 500) [] = [⟨.user, "hi"⟩] ∧
    StudyBuddy.callLLMHistory "hi" (.httpErr 500) [] ≠ ([] : List Turn) := by
  decide

/-- Claim C7 (amended): tier 1 always appends the user turn before the call;
the assistant turn is appended exactly when the call returns HTTP success
with a truthy response body, and on any tier-1 failure the ring holds the
prior history plus only the user turn. -/
theorem claim7_amended_history_effect (msg : String) (r : ApiOutcome) (h : List Turn) :
    StudyBuddy.callLLMHistory msg r h =
      match StudyBuddy.tier1Assistant r with
      | some m => addToHistory (addToHistory h ⟨.user, msg⟩) ⟨.assistant, m⟩
      | none => addToHistory h ⟨.user, msg⟩ := by
  cases r with
  | ok resp srcs =>
    cases resp with
    | none => rfl
    | some m =>
      by_cases hm : m = "" <;>
        simp [StudyBuddy.callLLMHistory, StudyBuddy.tier1Assistant, hm]
  | httpErr s => rfl
  | netErr => rfl

/-- Claim C8 counterexample: in the hf.space study-buddy orchestrator a 429
response is treated like any other failure — the result is the local
fallback answer, which carries no rate-limit notice. -/
theorem claim8_counterexample :
    StudyBuddyHF.callLLM "hello" (.httpErr 429) ⟨some catDL.subjects⟩ =
      some (StudyBuddyHF.generateLocalResponse "hello" ⟨some catDL.subjects⟩) ∧
    strIncludes ((StudyBuddyHF.callLLM "hello" (.httpErr 429) ⟨some catDL.subjects⟩).getD "")
      "Rate limit" = false := by
  decide

/-- Claim C8 (amended): only the llm.js orchestrator distinguishes a 429 and
returns the rate-limit notice verbatim; the hf.space study-buddy orchestrator
falls through to the deterministic local responder on a 429 like on any
other failure. -/
theorem claim8_amended_429_split (msg : String) (sd : SyllabusData) :
    LlmJs.callLLMResult (.httpErr 429) = some LlmJs.rateLimitNotice ∧
    StudyBuddyHF.callLLM msg (.httpErr 429) sd =
      some (StudyBuddyHF.generateLocalResponse msg sd) :=
  ⟨rfl, rfl⟩

/-- Claim C9 counterexample: "show me deep learning unit 0" is a unit query
whose subject resolves and whose extracted unit number (0) the subject does
not have, yet the answer is the full syllabus card, not the unit-count
message — `parseInt("0")` is falsy, so `if (subject && unitNum)` fails and
the `else if (subject)` branch runs (part_001:122-123). -/
theorem claim9_counterexample :
    App.processQuery "show me deep learning unit 0" catDL = App.createSyllabusCard dlSubject ∧
    App.findSubjectInQuery (lowerStr "show me deep learning unit 0") catDL = some dlSubject ∧
    App.matchUnitNum (lowerStr "show me deep learning unit 0") = some 0 ∧
    App.findSubjectUnit dlSubject.name 0 catDL = none ∧
    App.createSyllabusCard dlSubject ≠
      "<p>I couldn't find Unit 0 for <strong>Deep Learning</strong>. This subject has 5 units.</p>" := by
  have h1 : (strIncludes (lowerStr "show me deep learning unit 0") "list" &&
      (strIncludes (lowerStr "show me deep learning unit 0") "subject" ||
       strIncludes (lowerStr "show me deep learning unit 0") "all")) = false := by decide
  have h2 : strIncludes (lowerStr "show me deep learning unit 0") "unit" = true := by decide
  have h3 : App.findSubjectInQuery (lowerStr "show me deep learning unit 0") catDL =
      some dlSubject := by decide
  have h4 : App.matchUnitNum (lowerStr "show me deep learning unit 0") = some 0 := by decide
  refine ⟨?_, h3, h4, by decide, by decide⟩
  simp only [App.processQuery, h1, h2, h3, h4]
  simp

/-- Claim C9 (amended): whenever the unit branch resolves a subject and a
nonzero unit number the subject does not have, the answer is the message
reporting the subject's actual unit count; an extracted unit number 0 is
falsy and instead yields the subject's full syllabus card. -/
theorem claim9_amended_nonzero_unit_count (query : String) (cat : Catalog) (n : Nat) (s : Subject)
    (h1 : (strIncludes (lowerStr query) "list" &&
      (strIncludes (lowerStr query) "subject" || strIncludes (lowerStr query) "all")) = false)
    (h2 : strIncludes (lowerStr query) "unit" = true)
    (h3 : App.findSubjectInQuery (lowerStr query) cat = some s)
    (h4 : App.matchUnitNum (lowerStr query) = some n)
    (h5 : n ≠ 0)
    (h6 : App.findSubjectUnit s.name n cat = none) :
    App.processQuery query cat =
      "<p>I couldn't find Unit " ++ toString n ++ " for <strong>" ++ s.name ++
      "</strong>. This subject has " ++ toString s.units.length ++ " units.</p>" := by
  simp only [App.processQuery, h1, h2, h3, h4, h6]
  simp [h5]

/-- Witness for the amended claim C9: "Show me Deep Learning Unit 9" against
a Deep Learning catalog with 5 units reports the count 5. -/
theorem claim9_amended_witness :
    App.processQuery "Show me Deep Learning Unit 9" catDL =
      "<p>I couldn't find Unit 9 for <strong>Deep Learning</strong>. This subject has 5 units.</p>" := by
  have h := claim9_amended_nonzero_unit_count "Show me Deep Learning Unit 9" catDL 9 dlSubject
    (by decide) (by decide) (by decide) (by decide) (by decide) (by decide)
  exact h.trans (by decide)

/-- Claim C10: the formatter returns null exactly on falsy input — null,
undefined (both `none`) and the empty string map to `none`, and every
non-empty input yields a markup string. -/
theorem claim10_formatter_null_guard :
    LlmJs.formatLLMResponse none = none ∧
    LlmJs.formatLLMResponse (some "") = none ∧
    ∀ s : String, s ≠ "" → (LlmJs.formatLLMResponse (some s)).isSome = true := by
  refine ⟨rfl, rfl, ?_⟩
  intro s hs
  simp [LlmJs.formatLLMResponse, hs]

/-- Witness for claim C10 at the non-empty input "hello". -/
theorem claim10_witness :
    ("hello" : String) ≠ "" ∧ (LlmJs.formatLLMResponse (some "hello")).isSome = true :=
  ⟨by decide, claim10_formatter_null_guard.2.2 "hello" (by decide)⟩
